import Mathlib

/-! Entrevistador: the turn-taking controller of `frontend/js/app.js`.

A shallow embedding of the browser client.  The JavaScript `state` object and the
parts of the page the handlers read or write become the record `Ctl`; every
externally visible action (status badge update, notification, rendered message,
`fetch`, microphone and player calls) is also appended to `Ctl.trace`.

An `async` handler is written in continuation-passing style: it runs up to its
first `await`, returns the controller state reached there together with a
suspension `Susp` that names the awaited call and holds the rest of the handler.
`Machine` interleaves suspended handlers with user intents on one event loop.

An awaited `fetch` and the read of its body (`response.json()`, `response.blob()`)
are one suspension: its reply is `rejected` (the promise rejected), `notOk`
(`response.ok` false), `badBody` (reading the body threw) or `ok data`.  The fields
of a response body are optional strings, as the backend contract types them.
-/

namespace Entrevistador

/-! ## Language primitives -/

/-- White space and line terminators removed by `String.prototype.trim`. -/
def isJsWhiteSpace (ch : Char) : Bool :=
  ch.toNat ∈ [9, 10, 11, 12, 13, 32, 160, 5760, 8232, 8233, 8239, 8287, 12288, 65279]
    || (8192 ≤ ch.toNat && ch.toNat ≤ 8202)

/-- The method `trim` of JavaScript strings. -/
def jsTrim (s : String) : String :=
  ⟨((s.data.dropWhile isJsWhiteSpace).reverse.dropWhile isJsWhiteSpace).reverse⟩

/-- The status vocabulary, the keys of `colors` in `updateStatus`. -/
inductive Status
  | ready | active | recording | processing | speaking | error
  deriving DecidableEq, Repr

/-- The second argument of `showNotification`. -/
inductive Severity
  | info | warning | error
  deriving DecidableEq, Repr

/-- An opaque finite byte buffer. -/
abbrev Blob := List Nat

/-- A microphone stream handle. -/
abbrev Stream := Nat

/-- Body of a successful `/api/interview/start` response. -/
structure StartData where
  session_id : Option String
  falar : Option String
  codigo : Option String
  deriving DecidableEq, Repr

/-- Body of a successful `/api/transcribe` response. -/
structure TranscribeData where
  transcription : Option String
  deriving DecidableEq, Repr

/-- Body of a successful `/api/interview/message` response. -/
structure MessageData where
  falar : Option String
  codigo : Option String
  deriving DecidableEq, Repr

/-- Body of a successful `/api/interview/evaluate` response. -/
structure EvaluateData where
  evaluation : String
  deriving DecidableEq, Repr

/-- The five requests sent to the backend, with their payloads. -/
inductive Request
  | start (profile stack : String)
  | transcribe (audioBlob : Blob) (session_id : Option String)
  | message (session_id : Option String) (text : String) (is_code : Bool)
  | synthesize (session_id : Option String) (text : String)
  | evaluate (session_id : Option String)
  deriving DecidableEq, Repr

/-- A child of `elements.chatMessages`. -/
inductive ChatItem
  | welcome
  | user (text : String) (isCode : Bool)
  | assistant (falar codigo : Option String)
  deriving DecidableEq, Repr

/-- What `elements.evaluationContent` shows. -/
inductive EvaluationContent
  | empty
  | loading
  | report (markdown : String)
  | failure
  deriving DecidableEq, Repr

/-- Externally visible actions, in the order they happen. -/
inductive Effect
  | updateStatus (text : String) (type : Status)
  | showNotification (message : String) (type : Severity)
  | consoleLog (message : String)
  | consoleError (message : String)
  | addUserMessage (text : String) (isCode : Bool)
  | addAssistantMessage (falar codigo : Option String)
  | fetch (req : Request)
  | getUserMedia
  | recorderStart (stream : Stream)
  | recorderStop (stream : Stream)
  | tracksStop (stream : Stream)
  | play (audioBlob : Blob)
  | revokeObjectURL (audioBlob : Blob)
  deriving DecidableEq, Repr

/-- The `state` object (lines 9-17); a recorder is identified by its stream. -/
structure AppState where
  sessionId : Option String
  profile : String
  stack : String
  isRecording : Bool
  mediaRecorder : Option Stream
  audioChunks : List Nat
  currentTab : String
  deriving DecidableEq, Repr

/-- The controller: `state`, the page elements the handlers touch, and the trace.
`status` is the last `type` handed to `updateStatus`; `stopping` lists the recorders
on which `stop()` was called and whose `stop` event is still due. -/
structure Ctl where
  state : AppState
  profileSelect : String
  stackInput : String
  codeTextarea : String
  statusText : String
  statusDot : String
  status : Status
  chatMessages : List ChatItem
  setupPanelHidden : Bool
  interviewPanelHidden : Bool
  recordBtnRecording : Bool
  recordText : String
  voiceVisualizerHidden : Bool
  voiceInputHidden : Bool
  codeInputHidden : Bool
  evaluationModalHidden : Bool
  evaluationContent : EvaluationContent
  audioSrc : Option Blob
  onended : Option Blob
  stopping : List Stream
  trace : List Effect
  deriving DecidableEq, Repr

/-- How an awaited remote call settles. -/
inductive Reply (α : Type)
  | rejected
  | notOk
  | badBody
  | ok (data : α)
  deriving DecidableEq, Repr

/-- A handler parked at an `await`: the awaited call and the rest of the handler. -/
inductive Susp
  | done
  | getUserMedia (k : Option Stream → Ctl → Ctl × Susp)
  | fetchStart (req : Request) (k : Reply StartData → Ctl → Ctl × Susp)
  | fetchTranscribe (req : Request) (k : Reply TranscribeData → Ctl → Ctl × Susp)
  | fetchMessage (req : Request) (k : Reply MessageData → Ctl → Ctl × Susp)
  | fetchSynthesize (req : Request) (k : Reply Blob → Ctl → Ctl × Susp)
  | play (k : Bool → Ctl → Ctl × Susp)
  | fetchEvaluate (req : Request) (k : Reply EvaluateData → Ctl → Ctl × Susp)

/-- The settlement of an awaited call, as delivered by the environment. -/
inductive Resp
  | stream (r : Option Stream)
  | start (r : Reply StartData)
  | transcribe (r : Reply TranscribeData)
  | message (r : Reply MessageData)
  | synthesize (r : Reply Blob)
  | played (started : Bool)
  | evaluate (r : Reply EvaluateData)
  deriving DecidableEq, Repr

/-! ## Presentation helpers (lines 387-465) -/

/-- Append one action to the trace. -/
def Ctl.emit (c : Ctl) (e : Effect) : Ctl :=
  { c with trace := c.trace ++ [e] }

/-- The table `colors` of `updateStatus`. -/
def colors : Status → String
  | .ready => "#14b8a6"
  | .active => "#14b8a6"
  | .recording => "#ef4444"
  | .processing => "#f59e0b"
  | .speaking => "#6366f1"
  | .error => "#ef4444"

/-- Function `updateStatus(text, type)`. -/
def updateStatus (text : String) (type : Status) (c : Ctl) : Ctl :=
  { c with statusText := text, statusDot := colors type, status := type,
           trace := c.trace ++ [.updateStatus text type] }

/-- Function `showNotification(message, type)`. -/
def showNotification (message : String) (type : Severity) (c : Ctl) : Ctl :=
  c.emit (.showNotification message type)

/-- Function `addUserMessage(text, isCode)`. -/
def addUserMessage (text : String) (isCode : Bool) (c : Ctl) : Ctl :=
  { c with chatMessages := c.chatMessages ++ [.user text isCode],
           trace := c.trace ++ [.addUserMessage text isCode] }

/-- Function `addAssistantMessage(falar, codigo)`. -/
def addAssistantMessage (falar codigo : Option String) (c : Ctl) : Ctl :=
  { c with chatMessages := c.chatMessages ++ [.assistant falar codigo],
           trace := c.trace ++ [.addAssistantMessage falar codigo] }

/-- Function `switchTab(tab)`. -/
def switchTab (tab : String) (c : Ctl) : Ctl :=
  let c := { c with state := { c.state with currentTab := tab } }
  if tab = "voice" then { c with voiceInputHidden := false, codeInputHidden := true }
  else { c with voiceInputHidden := true, codeInputHidden := false }

/-- Function `closeEvaluationModal()`. -/
def closeEvaluationModal (c : Ctl) : Ctl :=
  { c with evaluationModalHidden := true }

/-- A handler that has returned. -/
def finish (c : Ctl) : Ctl × Susp := (c, .done)

/-! ## Handlers -/

/-- The `catch` block of `synthesizeAndPlay` (lines 302-306). -/
def synthesizeCatch (c : Ctl) : Ctl :=
  updateStatus "Entrevista em andamento" .active
    (showNotification "⚠️ Erro ao sintetizar voz (continuando sem áudio)" .warning
      (c.emit (.consoleError "Error synthesizing speech:")))

/-- Function `synthesizeAndPlay(text)` (lines 273-307); `k` is what the caller does after
`await synthesizeAndPlay(...)`. -/
def synthesizeAndPlay (text : String) (k : Ctl → Ctl × Susp) (c : Ctl) : Ctl × Susp :=
  let c := updateStatus "Falando..." .speaking c
  let req := Request.synthesize c.state.sessionId text
  (c.emit (.fetch req), .fetchSynthesize req fun r c =>
    match r with
    | .ok audioBlob =>
      let c := { c with audioSrc := some audioBlob }
      (c.emit (.play audioBlob), .play fun started c =>
        if started then k { c with onended := some audioBlob }
        else k (synthesizeCatch c))
    | _ => k (synthesizeCatch c))

/-- The `onended` callback installed by `synthesizeAndPlay` (lines 297-300). -/
def onendedHandler (audioBlob : Blob) (c : Ctl) : Ctl :=
  (updateStatus "Entrevista em andamento" .active c).emit (.revokeObjectURL audioBlob)

/-- The `catch` block of `sendMessage` (lines 265-269). -/
def sendMessageCatch (c : Ctl) : Ctl :=
  updateStatus "Entrevista em andamento" .active
    (showNotification "❌ Erro ao enviar mensagem" .error
      (c.emit (.consoleError "Error sending message:")))

/-- Function `sendMessage(text, isCode)` (lines 237-270). -/
def sendMessage (text : String) (isCode : Bool) (k : Ctl → Ctl × Susp) (c : Ctl) :
    Ctl × Susp :=
  let c := updateStatus "Pensando..." .processing c
  let req := Request.message c.state.sessionId text isCode
  (c.emit (.fetch req), .fetchMessage req fun r c =>
    match r with
    | .ok data =>
      let c := addAssistantMessage data.falar data.codigo c
      match data.falar with
      | some falar =>
        if falar ≠ "" then synthesizeAndPlay falar k c
        else k (updateStatus "Entrevista em andamento" .active c)
      | none => k (updateStatus "Entrevista em andamento" .active c)
    | _ => k (sendMessageCatch c))

/-- The `catch` block of `startInterview` (lines 117-121). -/
def startInterviewCatch (c : Ctl) : Ctl :=
  updateStatus "Erro" .error
    (showNotification "❌ Erro ao iniciar entrevista" .error
      (c.emit (.consoleError "Error starting interview:")))

/-- The rest of the `try` block of `startInterview` once the start call has
succeeded with body `data` (lines 97-115). -/
def startInterviewOk (data : StartData) (c : Ctl) : Ctl × Susp :=
  let c := { c with state := { c.state with sessionId := data.session_id } }
  let c := { c with setupPanelHidden := true, interviewPanelHidden := false }
  let c := { c with chatMessages := [] }
  let c := addAssistantMessage data.falar data.codigo c
  let tail := fun c => finish (updateStatus "Entrevista em andamento" .active c)
  match data.falar with
  | some falar => if falar ≠ "" then synthesizeAndPlay falar tail c else tail c
  | none => tail c

/-- Function `startInterview()` (lines 79-122). -/
def startInterview (c : Ctl) : Ctl × Susp :=
  let c := { c with state := { c.state with
    profile := c.profileSelect,
    stack := if jsTrim c.stackInput ≠ "" then jsTrim c.stackInput else "backend" } }
  let c := updateStatus "Iniciando entrevista..." .processing c
  let req := Request.start c.state.profile c.state.stack
  (c.emit (.fetch req), .fetchStart req fun r c =>
    match r with
    | .ok data => startInterviewOk data c
    | _ => finish (startInterviewCatch c))

/-- The `catch` block of `processAudio` (lines 214-218). -/
def processAudioCatch (c : Ctl) : Ctl :=
  updateStatus "Entrevista em andamento" .active
    (showNotification "❌ Erro ao processar áudio" .error
      (c.emit (.consoleError "Error processing audio:")))

/-- The early return of `processAudio` on a blank transcription (lines 202-206). -/
def noSpeech (c : Ctl) : Ctl :=
  updateStatus "Entrevista em andamento" .active
    (showNotification "⚠️ Nenhuma fala detectada" .warning c)

/-- Function `processAudio(audioBlob)` (lines 183-219). -/
def processAudio (audioBlob : Blob) (k : Ctl → Ctl × Susp) (c : Ctl) : Ctl × Susp :=
  let req := Request.transcribe audioBlob c.state.sessionId
  let c := updateStatus "Transcrevendo..." .processing c
  (c.emit (.fetch req), .fetchTranscribe req fun r c =>
    match r with
    | .ok transcribeData =>
      match transcribeData.transcription with
      | some transcription =>
        if transcription = "" ∨ jsTrim transcription = "" then k (noSpeech c)
        else sendMessage transcription false k (addUserMessage transcription false c)
      | none => k (noSpeech c)
    | _ => k (processAudioCatch c))

/-- Function `sendCode()` (lines 222-234). -/
def sendCode (c : Ctl) : Ctl × Susp :=
  let code := jsTrim c.codeTextarea
  if code = "" then
    finish (showNotification "⚠️ Digite algum código primeiro" .warning c)
  else
    let c := addUserMessage code true c
    let c := { c with codeTextarea := "" }
    sendMessage code true finish c

/-- Function `evaluateInterview()` (lines 310-344). -/
def evaluateInterview (c : Ctl) : Ctl × Susp :=
  let c := { c with evaluationModalHidden := false }
  let c := { c with evaluationContent := .loading }
  let req := Request.evaluate c.state.sessionId
  (c.emit (.fetch req), .fetchEvaluate req fun r c =>
    match r with
    | .ok data => finish { c with evaluationContent := .report data.evaluation }
    | _ =>
      finish { c.emit (.consoleError "Error evaluating interview:") with
        evaluationContent := .failure })

/-- Function `resetInterview()` (lines 352-366); `confirmed` is the answer to `confirm(...)`. -/
def resetInterview (confirmed : Bool) (c : Ctl) : Ctl :=
  if confirmed then
    let c := { c with state := { c.state with sessionId := none } }
    let c := { c with interviewPanelHidden := true, setupPanelHidden := false }
    let c := { c with chatMessages := [.welcome] }
    updateStatus "Pronto" .ready c
  else c

/-- Function `stopRecording()` (lines 168-180).  The error channel carries the name of a
thrown exception; the function has no `throw`. -/
def stopRecording (c : Ctl) : Except String Ctl :=
  match c.state.mediaRecorder with
  | some recorder =>
    if c.state.isRecording then
      let c := { c.emit (.recorderStop recorder) with stopping := c.stopping ++ [recorder] }
      let c := { c with state := { c.state with isRecording := false } }
      let c := { c with recordBtnRecording := false, recordText := "Clique para falar",
                        voiceVisualizerHidden := true }
      .ok (updateStatus "Processando..." .processing c)
    else .ok c
  | none => .ok c

/-- Function `startRecording()` (lines 134-165).  The only call of its `try` block
taken to fail is `getUserMedia` (`none`: access denied or no device). -/
def startRecording (k : Ctl → Ctl × Susp) (c : Ctl) : Ctl × Susp :=
  (c.emit .getUserMedia, .getUserMedia fun r c =>
    match r with
    | some stream =>
      let c := { c with state := { c.state with mediaRecorder := some stream } }
      let c := { c with state := { c.state with audioChunks := [] } }
      let c := c.emit (.recorderStart stream)
      let c := { c with state := { c.state with isRecording := true } }
      let c := { c with recordBtnRecording := true,
                        recordText := "Gravando... Clique para parar",
                        voiceVisualizerHidden := false }
      k (updateStatus "Gravando..." .recording c)
    | none =>
      k (showNotification "❌ Erro ao acessar microfone" .error
          (c.emit (.consoleError "Error starting recording:"))))

/-- Function `toggleRecording()` (lines 125-131). -/
def toggleRecording (c : Ctl) : Ctl × Susp :=
  if c.state.isRecording then
    match stopRecording c with
    | .ok c => finish c
    | .error _ => finish c
  else startRecording finish c

/-- The `ondataavailable` callback (lines 141-143). -/
def ondataavailable (chunk : Nat) (c : Ctl) : Ctl :=
  { c with state := { c.state with audioChunks := c.state.audioChunks ++ [chunk] } }

/-- The `onstop` callback of the recorder created on `stream` (lines 145-149). -/
def onstop (stream : Stream) (c : Ctl) : Ctl × Susp :=
  let audioBlob : Blob := c.state.audioChunks
  processAudio audioBlob (fun c => finish (c.emit (.tracksStop stream))) c

/-- Function `checkMicrophonePermission()` (lines 67-76). -/
def checkMicrophonePermission (c : Ctl) : Ctl × Susp :=
  (c.emit .getUserMedia, .getUserMedia fun r c =>
    match r with
    | some stream =>
      finish ((c.emit (.tracksStop stream)).emit (.consoleLog "Microphone permission granted"))
    | none =>
      finish (showNotification "⚠️ Permissão de microfone necessária" .error
        (c.emit (.consoleError "Microphone permission denied:"))))

/-! ## Running handlers -/

/-- Deliver a settlement to a parked handler; `c` is the controller at that moment.
A settlement of the wrong kind is not delivered. -/
def Susp.resume : Susp → Resp → Ctl → Option (Ctl × Susp)
  | .getUserMedia k, .stream r, c => some (k r c)
  | .fetchStart _ k, .start r, c => some (k r c)
  | .fetchTranscribe _ k, .transcribe r, c => some (k r c)
  | .fetchMessage _ k, .message r, c => some (k r c)
  | .fetchSynthesize _ k, .synthesize r, c => some (k r c)
  | .play k, .played started, c => some (k started c)
  | .fetchEvaluate _ k, .evaluate r, c => some (k r c)
  | _, _, _ => none

/-- Run one handler in isolation: its awaited calls settle in order with `rs` and
nothing else happens in between. -/
def run : Ctl × Susp → List Resp → Option (Ctl × Susp)
  | p, [] => some p
  | (c, s), r :: rs =>
    match s.resume r c with
    | some p => run p rs
    | none => none

/-- The actions a run added to the trace of `c`. -/
def since (c : Ctl) (c' : Ctl) : List Effect :=
  c'.trace.drop c.trace.length

/-- A remote call that did not succeed. -/
def Reply.failed {α : Type} : Reply α → Bool
  | .ok _ => false
  | _ => true

/-- Whether a suspension is an outstanding request to the backend. -/
def Susp.isFetch : Susp → Bool
  | .fetchStart _ _ => true
  | .fetchTranscribe _ _ => true
  | .fetchMessage _ _ => true
  | .fetchSynthesize _ _ => true
  | .fetchEvaluate _ _ => true
  | _ => false

/-- The request an outstanding suspension is waiting on. -/
def Susp.request : Susp → Option Request
  | .fetchStart req _ => some req
  | .fetchTranscribe req _ => some req
  | .fetchMessage req _ => some req
  | .fetchSynthesize req _ => some req
  | .fetchEvaluate req _ => some req
  | _ => none

/-! ## Trace observers -/

/-- Is the action a rendered turn (user or assistant)? -/
def Effect.isTurn : Effect → Bool
  | .addUserMessage _ _ => true
  | .addAssistantMessage _ _ => true
  | _ => false

/-- Is the action a rendered user turn? -/
def Effect.isUserTurn : Effect → Bool
  | .addUserMessage _ _ => true
  | _ => false

/-- Is the action a rendered assistant turn? -/
def Effect.isAssistantTurn : Effect → Bool
  | .addAssistantMessage _ _ => true
  | _ => false

/-- Is the action a call of `showNotification`? -/
def Effect.isNotification : Effect → Bool
  | .showNotification _ _ => true
  | _ => false

/-- Is the action a `fetch`? -/
def Effect.isFetch : Effect → Bool
  | .fetch _ => true
  | _ => false

/-- Is the action a `fetch` of `/api/interview/message`? -/
def Effect.isMessageFetch : Effect → Bool
  | .fetch (.message _ _ _) => true
  | _ => false

/-- Is the action a `fetch` of `/api/synthesize`? -/
def Effect.isSynthesizeFetch : Effect → Bool
  | .fetch (.synthesize _ _) => true
  | _ => false

/-- Is the action `updateStatus(_, type)`? -/
def Effect.setsStatus (type : Status) : Effect → Bool
  | .updateStatus _ t => t == type
  | _ => false

/-- Is the action the start of playback? -/
def Effect.isPlay : Effect → Bool
  | .play _ => true
  | _ => false

/-- Number of turns in the transcript (the welcome banner is not a turn). -/
def turns (chat : List ChatItem) : Nat :=
  chat.countP fun item => item != .welcome

/-! ## The event loop -/

/-- The controller and the handlers parked at an `await`. -/
structure Machine where
  ctl : Ctl
  pending : List Susp

/-- What the event loop dispatches: edits of the form fields, user intents, callbacks
of the recorder and the player, and settlements of awaited calls. -/
inductive Event
  | selectProfile (value : String)
  | typeStack (value : String)
  | typeCode (value : String)
  | startClick
  | recordClick
  | sendCodeClick
  | evaluateClick
  | newInterviewClick (confirmed : Bool)
  | closeModalClick
  | tabClick (tab : String)
  | dataavailable (chunk : Nat)
  | recorderStopped (stream : Stream)
  | audioEnded
  | settle (i : Nat) (r : Resp)
  deriving DecidableEq, Repr

/-- A handler parked at an `await` stays in the pending list; a finished one does not. -/
def park : Susp → List Susp
  | .done => []
  | s => [s]

/-- Start a handler: run it to its first `await` and park it. -/
def Machine.spawn (m : Machine) (h : Ctl → Ctl × Susp) : Machine :=
  ⟨(h m.ctl).1, m.pending ++ park (h m.ctl).2⟩

/-- Run a synchronous callback. -/
def Machine.sync (m : Machine) (f : Ctl → Ctl) : Machine :=
  ⟨f m.ctl, m.pending⟩

/-- One turn of the event loop; `none` when the event cannot occur. -/
def Machine.step (m : Machine) : Event → Option Machine
  | .selectProfile value => some (m.sync fun c => { c with profileSelect := value })
  | .typeStack value => some (m.sync fun c => { c with stackInput := value })
  | .typeCode value => some (m.sync fun c => { c with codeTextarea := value })
  | .startClick => some (m.spawn startInterview)
  | .recordClick => some (m.spawn toggleRecording)
  | .sendCodeClick => some (m.spawn sendCode)
  | .evaluateClick => some (m.spawn evaluateInterview)
  | .newInterviewClick confirmed => some (m.sync (resetInterview confirmed))
  | .closeModalClick => some (m.sync closeEvaluationModal)
  | .tabClick tab => some (m.sync (switchTab tab))
  | .dataavailable chunk =>
    if m.ctl.state.mediaRecorder.isSome then some (m.sync (ondataavailable chunk)) else none
  | .recorderStopped stream =>
    if stream ∈ m.ctl.stopping then
      some (Machine.spawn ⟨{ m.ctl with stopping := m.ctl.stopping.erase stream }, m.pending⟩
        (onstop stream))
    else none
  | .audioEnded =>
    match m.ctl.onended with
    | some audioBlob => some (m.sync (onendedHandler audioBlob))
    | none => none
  | .settle i r =>
    match m.pending.get? i with
    | some s =>
      match s.resume r m.ctl with
      | some p => some ⟨p.1, m.pending.eraseIdx i ++ park p.2⟩
      | none => none
    | none => none

/-- Dispatch a list of events in order. -/
def Machine.steps : Machine → List Event → Option Machine
  | m, [] => some m
  | m, e :: es =>
    match m.step e with
    | some m' => m'.steps es
    | none => none

/-- Number of requests to the backend that have been issued and have not settled. -/
def Machine.outstanding (m : Machine) : Nat :=
  m.pending.countP Susp.isFetch

/-- Modelled from the spec: the page markup is not part of the sources, so the
initial values of the page elements follow the spec (controller Idle, status
`ready`, welcome banner shown, setup panel visible); the `state` fields are the
literal of lines 9-17. -/
def Ctl.initial : Ctl :=
  { state := { sessionId := none, profile := "pleno", stack := "backend",
               isRecording := false, mediaRecorder := none, audioChunks := [],
               currentTab := "voice" },
    profileSelect := "pleno", stackInput := "", codeTextarea := "",
    statusText := "Pronto", statusDot := colors .ready, status := .ready,
    chatMessages := [.welcome],
    setupPanelHidden := false, interviewPanelHidden := true,
    recordBtnRecording := false, recordText := "Clique para falar",
    voiceVisualizerHidden := true, voiceInputHidden := false, codeInputHidden := true,
    evaluationModalHidden := true, evaluationContent := .empty,
    audioSrc := none, onended := none, stopping := [], trace := [] }

/-- The machine after `DOMContentLoaded` (lines 43-46). -/
def Machine.initial : Machine :=
  Machine.spawn ⟨Ctl.initial, []⟩ checkMicrophonePermission

/-- An optional transcription that is absent, empty or made of white space only. -/
def blank : Option String → Bool
  | none => true
  | some t => t.data.all isJsWhiteSpace

/-- The rendered turns and the issued requests among a list of actions, in order. -/
def visible (l : List Effect) : List Effect :=
  l.filter fun e => e.isTurn || e.isFetch

/-- The synthesize request that follows an assistant turn: one, for the spoken text,
when that text is truthy, none otherwise. -/
def synthesizeRequests (sessionId : Option String) : Option String → List Effect
  | some falar => if falar ≠ "" then [.fetch (.synthesize sessionId falar)] else []
  | none => []

/-- A remainder of a caller that renders no turn and issues no request. -/
def Quiet (g : Ctl → Ctl) : Prop :=
  ∀ c, ∃ l, (g c).trace = c.trace ++ l ∧ visible l = []

/-! ## Whole runs of the nested handlers -/

theorem run_done (c : Ctl) (rs : List Resp) (p : Ctl × Susp)
    (h : run (c, .done) rs = some p) : p = (c, .done) := by
  cases rs with
  | nil => simpa [run] using h.symm
  | cons r rs => simp [run, Susp.resume] at h

theorem visible_append (l₁ l₂ : List Effect) : visible (l₁ ++ l₂) = visible l₁ ++ visible l₂ := by
  simp [visible]

theorem quiet_id : Quiet id := fun _ => ⟨[], by simp, rfl⟩

/-- The turns and requests of a whole `synthesizeAndPlay`, however its calls settle. -/
theorem synthesizeAndPlay_run (text : String) (g : Ctl → Ctl) (hg : Quiet g)
    (c : Ctl) (rs : List Resp) (p : Ctl × Susp)
    (h : run (synthesizeAndPlay text (fun c => finish (g c)) c) rs = some p) :
    ∃ l, p.1.trace = c.trace ++ l
      ∧ visible l = [.fetch (.synthesize c.state.sessionId text)] := by
  rcases rs with _ | ⟨r1, rs⟩
  · simp [run] at h
    subst h
    exact ⟨[.updateStatus "Falando..." .speaking, .fetch (.synthesize c.state.sessionId text)],
      by simp [synthesizeAndPlay, updateStatus, Ctl.emit], rfl⟩
  · cases r1 with
    | synthesize r =>
      cases r with
      | ok b =>
        rcases rs with _ | ⟨r2, rs⟩
        · simp [run, synthesizeAndPlay, Susp.resume] at h
          subst h
          exact ⟨[.updateStatus "Falando..." .speaking,
            .fetch (.synthesize c.state.sessionId text), .play b],
            by simp [updateStatus, Ctl.emit], rfl⟩
        · cases r2 with
          | played started =>
            cases started with
            | true =>
              simp [run, synthesizeAndPlay, Susp.resume] at h
              have hp := run_done _ _ _ h
              subst hp
              obtain ⟨l, hl, hv⟩ := hg { (({ (updateStatus "Falando..." .speaking c).emit
                (.fetch (.synthesize c.state.sessionId text)) with audioSrc := some b }).emit
                  (.play b)) with onended := some b }
              refine ⟨[.updateStatus "Falando..." .speaking,
                .fetch (.synthesize c.state.sessionId text), .play b] ++ l, ?_, ?_⟩
              · simp [finish, updateStatus, Ctl.emit] at hl ⊢
                simp [hl]
              · rw [visible_append, hv]; rfl
            | false =>
              simp [run, synthesizeAndPlay, Susp.resume] at h
              have hp := run_done _ _ _ h
              subst hp
              obtain ⟨l, hl, hv⟩ := hg (synthesizeCatch (({ (updateStatus "Falando..." .speaking c).emit
                (.fetch (.synthesize c.state.sessionId text)) with audioSrc := some b }).emit
                  (.play b)))
              refine ⟨[.updateStatus "Falando..." .speaking,
                .fetch (.synthesize c.state.sessionId text), .play b,
                .consoleError "Error synthesizing speech:",
                .showNotification "⚠️ Erro ao sintetizar voz (continuando sem áudio)" .warning,
                .updateStatus "Entrevista em andamento" .active] ++ l, ?_, ?_⟩
              · simp [finish, synthesizeCatch, showNotification, updateStatus, Ctl.emit] at hl ⊢
                simp [hl]
              · rw [visible_append, hv]; rfl
          | _ => simp [run, synthesizeAndPlay, Susp.resume] at h
      | _ =>
        simp [run, synthesizeAndPlay, Susp.resume] at h
        have hp := run_done _ _ _ h
        subst hp
        obtain ⟨l, hl, hv⟩ := hg (synthesizeCatch ((updateStatus "Falando..." .speaking c).emit
                (.fetch (.synthesize c.state.sessionId text))))
        refine ⟨[.updateStatus "Falando..." .speaking,
                .fetch (.synthesize c.state.sessionId text),
                .consoleError "Error synthesizing speech:",
                .showNotification "⚠️ Erro ao sintetizar voz (continuando sem áudio)" .warning,
                .updateStatus "Entrevista em andamento" .active] ++ l, ?_, ?_⟩
        · simp [finish, synthesizeCatch, showNotification, updateStatus, Ctl.emit] at hl ⊢
          simp [hl]
        · rw [visible_append, hv]; rfl
    | _ => simp [run, synthesizeAndPlay, Susp.resume] at h

theorem filter_visible (p : Effect → Bool) (hp : ∀ e, p e = true → (e.isTurn || e.isFetch) = true)
    (l : List Effect) : l.filter p = (visible l).filter p := by
  simp only [visible, List.filter_filter]
  congr 1
  funext e
  cases h : p e
  · simp
  · simp [hp e h]

theorem since_of_trace (c c' : Ctl) (l : List Effect) (h : c'.trace = c.trace ++ l) :
    since c c' = l := by
  simp [since, h]

/-- The turns and requests of a whole `sendMessage` whose message call succeeds. -/
theorem sendMessage_run_ok (text : String) (isCode : Bool) (g : Ctl → Ctl) (hg : Quiet g)
    (c : Ctl) (d : MessageData) (rs : List Resp) (p : Ctl × Susp)
    (h : run (sendMessage text isCode (fun c => finish (g c)) c)
      (.message (.ok d) :: rs) = some p) :
    ∃ l, p.1.trace = c.trace ++ l
      ∧ visible l = [.fetch (.message c.state.sessionId text isCode),
          .addAssistantMessage d.falar d.codigo] ++ synthesizeRequests c.state.sessionId d.falar := by
  have quietCase : ∀ (hq : run (finish (g (updateStatus "Entrevista em andamento" .active
      (addAssistantMessage d.falar d.codigo ((updateStatus "Pensando..." .processing c).emit
        (.fetch (.message c.state.sessionId text isCode))))))) rs = some p),
      ∃ l, p.1.trace = c.trace ++ l
        ∧ visible l = [.fetch (.message c.state.sessionId text isCode),
            .addAssistantMessage d.falar d.codigo] := by
    intro hq
    have hp := run_done _ _ _ hq
    subst hp
    obtain ⟨l, hl, hv⟩ := hg (updateStatus "Entrevista em andamento" .active
      (addAssistantMessage d.falar d.codigo ((updateStatus "Pensando..." .processing c).emit
        (.fetch (.message c.state.sessionId text isCode)))))
    refine ⟨[.updateStatus "Pensando..." .processing,
      .fetch (.message c.state.sessionId text isCode),
      .addAssistantMessage d.falar d.codigo,
      .updateStatus "Entrevista em andamento" .active] ++ l, ?_, ?_⟩
    · simp [finish, addAssistantMessage, updateStatus, Ctl.emit] at hl ⊢
      simp [hl]
    · rw [visible_append, hv]; rfl
  rcases hf : d.falar with _ | falar
  · simp [run, sendMessage, Susp.resume, hf] at h
    simpa [synthesizeRequests, hf] using quietCase (by simpa [hf] using h)
  · by_cases hne : falar = ""
    · simp [run, sendMessage, Susp.resume, hf, hne] at h
      simpa [synthesizeRequests, hf, hne] using quietCase (by simpa [hf, hne] using h)
    · simp [run, sendMessage, Susp.resume, hf, hne] at h
      obtain ⟨l, hl, hv⟩ := synthesizeAndPlay_run falar g hg _ rs p h
      refine ⟨[.updateStatus "Pensando..." .processing,
        .fetch (.message c.state.sessionId text isCode),
        .addAssistantMessage (some falar) d.codigo] ++ l, ?_, ?_⟩
      · simp [addAssistantMessage, updateStatus, Ctl.emit] at hl ⊢
        simp [hl]
      · rw [visible_append, hv]
        simp [synthesizeRequests, hne, addAssistantMessage, updateStatus, Ctl.emit, visible,
          Effect.isTurn, Effect.isFetch]

/-- The turns and requests of a whole `sendMessage`, however its calls settle: the
message request comes first and is followed by no user turn and no second message
request. -/
theorem sendMessage_run (text : String) (isCode : Bool) (g : Ctl → Ctl) (hg : Quiet g)
    (c : Ctl) (rs : List Resp) (p : Ctl × Susp)
    (h : run (sendMessage text isCode (fun c => finish (g c)) c) rs = some p) :
    ∃ l rest, p.1.trace = c.trace ++ l
      ∧ visible l = .fetch (.message c.state.sessionId text isCode) :: rest
      ∧ rest.filter (fun e => e.isUserTurn || e.isMessageFetch) = [] := by
  rcases rs with _ | ⟨r1, rs⟩
  · simp [run] at h
    subst h
    exact ⟨[.updateStatus "Pensando..." .processing,
      .fetch (.message c.state.sessionId text isCode)], [],
      by simp [sendMessage, updateStatus, Ctl.emit], rfl, rfl⟩
  · cases r1 with
    | message r =>
      cases r with
      | ok d =>
        obtain ⟨l, hl, hv⟩ := sendMessage_run_ok text isCode g hg c d rs p h
        refine ⟨l, _, hl, hv, ?_⟩
        rcases hf : d.falar with _ | falar
        · simp [synthesizeRequests, Effect.isUserTurn, Effect.isMessageFetch]
        · by_cases hne : falar = "" <;>
            simp [synthesizeRequests, hne, Effect.isUserTurn, Effect.isMessageFetch]
      | _ =>
        simp [run, sendMessage, Susp.resume] at h
        have hp := run_done _ _ _ h
        subst hp
        obtain ⟨l, hl, hv⟩ := hg (sendMessageCatch ((updateStatus "Pensando..." .processing c).emit
          (.fetch (.message c.state.sessionId text isCode))))
        refine ⟨[.updateStatus "Pensando..." .processing,
          .fetch (.message c.state.sessionId text isCode),
          .consoleError "Error sending message:",
          .showNotification "❌ Erro ao enviar mensagem" .error,
          .updateStatus "Entrevista em andamento" .active] ++ l, [], ?_, ?_, rfl⟩
        · simp [finish, sendMessageCatch, showNotification, updateStatus, Ctl.emit] at hl ⊢
          simp [hl]
        · rw [visible_append, hv]; rfl
    | _ => simp [run, sendMessage, Susp.resume] at h

theorem jsTrim_eq_empty_of_all (t : String) (h : t.data.all isJsWhiteSpace = true) :
    jsTrim t = "" := by
  have h1 : t.data.dropWhile isJsWhiteSpace = [] := by
    rw [List.dropWhile_eq_nil_iff]
    intro x hx
    exact (List.all_eq_true.mp h) x hx
  simp [jsTrim, h1]

/-! ## Claims -/

/-- C1: when the transcribe call succeeds with a transcription that is absent, empty or
white space only, `processAudio` renders no turn, sends neither a message nor a
synthesize request, calls `showNotification` exactly once, with severity `warning`,
and returns with the status indicator at `active`. -/
theorem processAudio_blank_transcription (c : Ctl) (audioBlob : Blob)
    (k : Ctl → Ctl × Susp) (transcription : Option String)
    (hblank : blank transcription = true) :
    ∃ c', run (processAudio audioBlob k c) [.transcribe (.ok ⟨transcription⟩)] = some (k c')
      ∧ (since c c').countP Effect.isTurn = 0
      ∧ c'.chatMessages = c.chatMessages
      ∧ (since c c').countP Effect.isMessageFetch = 0
      ∧ (since c c').countP Effect.isSynthesizeFetch = 0
      ∧ (since c c').filter Effect.isNotification
          = [.showNotification "⚠️ Nenhuma fala detectada" .warning]
      ∧ c'.status = .active := by
  refine ⟨noSpeech ((updateStatus "Transcrevendo..." .processing c).emit
    (.fetch (.transcribe audioBlob c.state.sessionId))), ?_, ?_⟩
  · cases transcription with
    | none => rfl
    | some t =>
      have ht := jsTrim_eq_empty_of_all t hblank
      simp [run, processAudio, Susp.resume, ht]
  · simp [since, noSpeech, updateStatus, showNotification, Ctl.emit, Effect.isTurn,
      Effect.isMessageFetch, Effect.isSynthesizeFetch, Effect.isNotification,
      List.countP_cons, List.filter_cons]

/-- Witness for C1: a transcription of blanks and a tab. -/
theorem processAudio_blank_transcription_witness :
    blank (some " \t ") = true ∧
    ∃ c', run (processAudio [1, 2] finish Ctl.initial)
        [.transcribe (.ok ⟨some " \t "⟩)] = some (finish c')
      ∧ (since Ctl.initial c').countP Effect.isTurn = 0
      ∧ c'.chatMessages = Ctl.initial.chatMessages
      ∧ (since Ctl.initial c').countP Effect.isMessageFetch = 0
      ∧ (since Ctl.initial c').countP Effect.isSynthesizeFetch = 0
      ∧ (since Ctl.initial c').filter Effect.isNotification
          = [.showNotification "⚠️ Nenhuma fala detectada" .warning]
      ∧ c'.status = .active :=
  ⟨by decide, processAudio_blank_transcription Ctl.initial [1, 2] finish (some " \t ")
    (by decide)⟩

/-- C2, as stated, fails: with the message call answered by spoken text `Olá` and the
synthesize call rejected, `sendMessage` sets the status indicator to `speaking`
(before it issues the synthesize request). -/
theorem sendMessage_failed_synthesis_enters_speaking :
    ∃ c', run (sendMessage "hi" false finish Ctl.initial)
        [.message (.ok ⟨some "Olá", none⟩), .synthesize .rejected] = some (c', .done)
      ∧ (since Ctl.initial c').countP (Effect.setsStatus .speaking) = 1 := by
  refine ⟨_, rfl, ?_⟩
  decide

/-- C2, amended: after a successful message response with non-empty spoken text, a
failing synthesize call leaves the assistant turn rendered exactly once, sets the
status indicator to `speaking` once, before the synthesize request is issued, never
starts playback, warns once and returns with the status indicator at `active`. -/
theorem sendMessage_failed_synthesis (c : Ctl) (text : String) (isCode : Bool)
    (k : Ctl → Ctl × Susp) (falar : String) (codigo : Option String) (r : Reply Blob)
    (hfalar : falar ≠ "") (hr : r.failed = true) :
    ∃ c', run (sendMessage text isCode k c)
        [.message (.ok ⟨some falar, codigo⟩), .synthesize r] = some (k c')
      ∧ since c c' =
          [.updateStatus "Pensando..." .processing,
           .fetch (.message c.state.sessionId text isCode),
           .addAssistantMessage (some falar) codigo,
           .updateStatus "Falando..." .speaking,
           .fetch (.synthesize c.state.sessionId falar),
           .consoleError "Error synthesizing speech:",
           .showNotification "⚠️ Erro ao sintetizar voz (continuando sem áudio)" .warning,
           .updateStatus "Entrevista em andamento" .active]
      ∧ (since c c').countP Effect.isAssistantTurn = 1
      ∧ c'.chatMessages = c.chatMessages ++ [.assistant (some falar) codigo]
      ∧ (since c c').countP Effect.isPlay = 0
      ∧ c'.status = .active := by
  refine ⟨synthesizeCatch ((updateStatus "Falando..." .speaking
    (addAssistantMessage (some falar) codigo
      ((updateStatus "Pensando..." .processing c).emit
        (.fetch (.message c.state.sessionId text isCode))))).emit
          (.fetch (.synthesize c.state.sessionId falar))), ?_, ?_⟩
  · cases r with
    | ok b => simp [Reply.failed] at hr
    | _ => simp [run, sendMessage, Susp.resume, synthesizeAndPlay, hfalar, updateStatus,
             addAssistantMessage, Ctl.emit]
  · simp [since, synthesizeCatch, updateStatus, showNotification, addAssistantMessage,
      Ctl.emit, Effect.isAssistantTurn, Effect.isPlay, List.countP_cons]

/-- Witness for C2, amended: spoken text `Olá`, synthesize answered with a non-success
response. -/
theorem sendMessage_failed_synthesis_witness :
    ∃ c', run (sendMessage "hi" false finish Ctl.initial)
        [.message (.ok ⟨some "Olá", some "x"⟩), .synthesize .notOk] = some (finish c')
      ∧ since Ctl.initial c' =
          [.updateStatus "Pensando..." .processing,
           .fetch (.message Ctl.initial.state.sessionId "hi" false),
           .addAssistantMessage (some "Olá") (some "x"),
           .updateStatus "Falando..." .speaking,
           .fetch (.synthesize Ctl.initial.state.sessionId "Olá"),
           .consoleError "Error synthesizing speech:",
           .showNotification "⚠️ Erro ao sintetizar voz (continuando sem áudio)" .warning,
           .updateStatus "Entrevista em andamento" .active]
      ∧ (since Ctl.initial c').countP Effect.isAssistantTurn = 1
      ∧ c'.chatMessages = Ctl.initial.chatMessages ++ [.assistant (some "Olá") (some "x")]
      ∧ (since Ctl.initial c').countP Effect.isPlay = 0
      ∧ c'.status = .active :=
  sendMessage_failed_synthesis Ctl.initial "hi" false finish "Olá" (some "x") .notOk
    (by decide) (by decide)

/-- C3, as stated, fails: a rejected start call leaves the status indicator at `error`,
and a rejected evaluate call goes through no `showNotification` at all. -/
theorem remote_failure_start_and_evaluate :
    (∃ c', run (startInterview Ctl.initial) [.start .rejected] = some (c', .done)
      ∧ c'.status = .error)
    ∧ (∃ c', run (evaluateInterview Ctl.initial) [.evaluate .rejected] = some (c', .done)
      ∧ (since Ctl.initial c').countP Effect.isNotification = 0) := by
  refine ⟨⟨_, rfl, ?_⟩, ⟨_, rfl, ?_⟩⟩
  · decide
  · decide

/-- C3, amended: none of the five handlers repeats a failed request (the run holds
exactly one `fetch`).  A failed transcribe, message or synthesize call makes its
handler call `showNotification` once and return with the status indicator at `active`.
A failed start call notifies once and leaves the status indicator at `error`.  A failed
evaluate call calls no `showNotification`: the failure is shown in the evaluation
panel and the status indicator is left as it was. -/
theorem remote_failure_handling (c : Ctl) (audioBlob : Blob) (text : String)
    (isCode : Bool) (k : Ctl → Ctl × Susp)
    (rs : Reply StartData) (rt : Reply TranscribeData) (rm : Reply MessageData)
    (ry : Reply Blob) (re : Reply EvaluateData)
    (hs : rs.failed = true) (ht : rt.failed = true) (hm : rm.failed = true)
    (hy : ry.failed = true) (he : re.failed = true) :
    (∃ c', run (startInterview c) [.start rs] = some (c', .done)
      ∧ (since c c').filter Effect.isNotification
          = [.showNotification "❌ Erro ao iniciar entrevista" .error]
      ∧ c'.status = .error
      ∧ (since c c').countP Effect.isFetch = 1)
    ∧ (∃ c', run (processAudio audioBlob k c) [.transcribe rt] = some (k c')
      ∧ (since c c').filter Effect.isNotification
          = [.showNotification "❌ Erro ao processar áudio" .error]
      ∧ c'.status = .active
      ∧ (since c c').countP Effect.isFetch = 1)
    ∧ (∃ c', run (sendMessage text isCode k c) [.message rm] = some (k c')
      ∧ (since c c').filter Effect.isNotification
          = [.showNotification "❌ Erro ao enviar mensagem" .error]
      ∧ c'.status = .active
      ∧ (since c c').countP Effect.isFetch = 1)
    ∧ (∃ c', run (synthesizeAndPlay text k c) [.synthesize ry] = some (k c')
      ∧ (since c c').filter Effect.isNotification
          = [.showNotification "⚠️ Erro ao sintetizar voz (continuando sem áudio)" .warning]
      ∧ c'.status = .active
      ∧ (since c c').countP Effect.isFetch = 1)
    ∧ (∃ c', run (evaluateInterview c) [.evaluate re] = some (c', .done)
      ∧ (since c c').countP Effect.isNotification = 0
      ∧ c'.status = c.status
      ∧ c'.evaluationContent = .failure
      ∧ (since c c').countP Effect.isFetch = 1) := by
  refine ⟨?_, ?_, ?_, ?_, ?_⟩
  · cases rs with
    | ok d => simp [Reply.failed] at hs
    | _ =>
      refine ⟨_, rfl, ?_⟩
      simp [since, startInterview, startInterviewCatch, updateStatus, showNotification,
        Ctl.emit, Effect.isNotification, Effect.isFetch, List.countP_cons, List.filter_cons]
  · cases rt with
    | ok d => simp [Reply.failed] at ht
    | _ =>
      refine ⟨_, rfl, ?_⟩
      simp [since, processAudioCatch, updateStatus, showNotification,
        Ctl.emit, Effect.isNotification, Effect.isFetch, List.countP_cons, List.filter_cons]
  · cases rm with
    | ok d => simp [Reply.failed] at hm
    | _ =>
      refine ⟨_, rfl, ?_⟩
      simp [since, sendMessageCatch, updateStatus, showNotification,
        Ctl.emit, Effect.isNotification, Effect.isFetch, List.countP_cons, List.filter_cons]
  · cases ry with
    | ok d => simp [Reply.failed] at hy
    | _ =>
      refine ⟨_, rfl, ?_⟩
      simp [since, synthesizeCatch, updateStatus, showNotification,
        Ctl.emit, Effect.isNotification, Effect.isFetch, List.countP_cons, List.filter_cons]
  · cases re with
    | ok d => simp [Reply.failed] at he
    | _ =>
      refine ⟨_, rfl, ?_⟩
      simp [since, evaluateInterview, Ctl.emit, Effect.isNotification, Effect.isFetch,
        List.countP_cons]

/-- Witness for C3, amended: every call rejected or answered with a non-success
response. -/
theorem remote_failure_handling_witness :
    (∃ c', run (startInterview Ctl.initial) [.start .rejected] = some (c', .done)
      ∧ (since Ctl.initial c').filter Effect.isNotification
          = [.showNotification "❌ Erro ao iniciar entrevista" .error]
      ∧ c'.status = .error
      ∧ (since Ctl.initial c').countP Effect.isFetch = 1)
    ∧ (∃ c', run (processAudio [1] finish Ctl.initial) [.transcribe .notOk]
          = some (finish c')
      ∧ (since Ctl.initial c').filter Effect.isNotification
          = [.showNotification "❌ Erro ao processar áudio" .error]
      ∧ c'.status = .active
      ∧ (since Ctl.initial c').countP Effect.isFetch = 1)
    ∧ (∃ c', run (sendMessage "hi" false finish Ctl.initial) [.message .badBody]
          = some (finish c')
      ∧ (since Ctl.initial c').filter Effect.isNotification
          = [.showNotification "❌ Erro ao enviar mensagem" .error]
      ∧ c'.status = .active
      ∧ (since Ctl.initial c').countP Effect.isFetch = 1)
    ∧ (∃ c', run (synthesizeAndPlay "hi" finish Ctl.initial) [.synthesize .rejected]
          = some (finish c')
      ∧ (since Ctl.initial c').filter Effect.isNotification
          = [.showNotification "⚠️ Erro ao sintetizar voz (continuando sem áudio)" .warning]
      ∧ c'.status = .active
      ∧ (since Ctl.initial c').countP Effect.isFetch = 1)
    ∧ (∃ c', run (evaluateInterview Ctl.initial) [.evaluate .notOk] = some (c', .done)
      ∧ (since Ctl.initial c').countP Effect.isNotification = 0
      ∧ c'.status = Ctl.initial.status
      ∧ c'.evaluationContent = .failure
      ∧ (since Ctl.initial c').countP Effect.isFetch = 1) :=
  remote_failure_handling Ctl.initial [1] "hi" false finish .rejected .notOk .badBody
    .rejected .notOk (by decide) (by decide) (by decide) (by decide) (by decide)

/-- C4, as stated, fails.  A confirmed reset while a recording is in progress leaves
`isRecording` true; and a message response that arrives after the reset is not
discarded: it renders an assistant turn and moves the status indicator to `active`. -/
theorem reset_keeps_recording_and_stale_response :
    (∃ m, Machine.initial.steps
        [.settle 0 (.stream (some 0)), .startClick,
         .settle 0 (.start (.ok ⟨some "abc", none, none⟩)),
         .recordClick, .settle 0 (.stream (some 1)),
         .newInterviewClick true] = some m
      ∧ m.ctl.state.isRecording = true)
    ∧ (∃ m m', Machine.initial.steps
        [.settle 0 (.stream (some 0)), .startClick,
         .settle 0 (.start (.ok ⟨some "abc", none, none⟩)),
         .typeCode "x", .sendCodeClick,
         .newInterviewClick true] = some m
      ∧ m.ctl.chatMessages = [.welcome] ∧ m.ctl.status = .ready
      ∧ m.step (.settle 0 (.message (.ok ⟨none, some "y"⟩))) = some m'
      ∧ m'.ctl.chatMessages = [.welcome, .assistant none (some "y")]
      ∧ m'.ctl.status = .active) := by
  refine ⟨⟨_, rfl, ?_⟩, ⟨_, _, rfl, ?_, ?_, rfl, ?_, ?_⟩⟩ <;> decide

/-- C4, amended: from every state a confirmed `resetInterview` leaves the session id
absent, the status indicator at `ready` and the transcript without turns; it leaves
`isRecording`, `mediaRecorder` and `audioChunks` as they were and cancels nothing:
the handlers parked on an outstanding call stay parked. -/
theorem resetInterview_confirmed (m : Machine) :
    ∃ m', m.step (.newInterviewClick true) = some m'
      ∧ m'.ctl.state.sessionId = none
      ∧ m'.ctl.status = .ready
      ∧ turns m'.ctl.chatMessages = 0
      ∧ m'.ctl.state.isRecording = m.ctl.state.isRecording
      ∧ m'.ctl.state.mediaRecorder = m.ctl.state.mediaRecorder
      ∧ m'.ctl.state.audioChunks = m.ctl.state.audioChunks
      ∧ m'.pending = m.pending := by
  refine ⟨_, rfl, ?_⟩
  simp [Machine.sync, resetInterview, updateStatus, turns]

/-- C6, as stated, fails: with a session started and a message request outstanding
(status `processing`), a click on the record button opens the microphone and, once
access is granted, sets `isRecording` and moves the status indicator to `recording`. -/
theorem recording_armed_while_processing :
    ∃ m m', Machine.initial.steps
        [.settle 0 (.stream (some 0)), .startClick,
         .settle 0 (.start (.ok ⟨some "abc", none, none⟩)),
         .typeCode "x", .sendCodeClick] = some m
      ∧ m.ctl.status = .processing ∧ m.outstanding = 1 ∧ m.ctl.state.isRecording = false
      ∧ m.steps [.recordClick, .settle 1 (.stream (some 1))] = some m'
      ∧ since m.ctl m'.ctl = [.getUserMedia, .recorderStart 1,
          .updateStatus "Gravando..." .recording]
      ∧ m'.ctl.state.isRecording = true
      ∧ m'.ctl.status = .recording := by
  refine ⟨_, _, rfl, ?_, ?_, ?_, rfl, ?_, ?_, ?_⟩ <;> decide

/-- C6, amended: the only guard of `toggleRecording` is `isRecording`.  Whenever it is
false, whatever the status indicator shows and whether or not a session exists, the
handler requests the microphone and, once access is granted, starts a recorder, sets
`isRecording` and moves the status indicator to `recording`. -/
theorem toggleRecording_arms (c : Ctl) (stream : Stream)
    (h : c.state.isRecording = false) :
    ∃ c', run (toggleRecording c) [.stream (some stream)] = some (c', .done)
      ∧ since c c' = [.getUserMedia, .recorderStart stream,
          .updateStatus "Gravando..." .recording]
      ∧ c'.state.isRecording = true
      ∧ c'.state.mediaRecorder = some stream
      ∧ c'.status = .recording := by
  have e : toggleRecording c = startRecording finish c := by simp [toggleRecording, h]
  rw [e]
  refine ⟨_, rfl, ?_⟩
  simp [since, updateStatus, Ctl.emit]

/-- Witness for C6, amended: the controller is waiting for the answer to a message
(status `processing`). -/
theorem toggleRecording_arms_witness :
    (sendMessage "x" true finish Ctl.initial).1.status = .processing
    ∧ ∃ c', run (toggleRecording (sendMessage "x" true finish Ctl.initial).1)
        [.stream (some 1)] = some (c', .done)
      ∧ since (sendMessage "x" true finish Ctl.initial).1 c'
          = [.getUserMedia, .recorderStart 1, .updateStatus "Gravando..." .recording]
      ∧ c'.state.isRecording = true
      ∧ c'.state.mediaRecorder = some 1
      ∧ c'.status = .recording :=
  ⟨rfl, toggleRecording_arms (sendMessage "x" true finish Ctl.initial).1 1 rfl⟩

/-- C7, as stated, fails: called in the initial state, where nothing was armed,
`stopRecording` returns normally; it raises no error. -/
theorem stopRecording_unarmed_returns :
    stopRecording Ctl.initial = .ok Ctl.initial
    ∧ ¬ ∃ e, stopRecording Ctl.initial = .error e := by
  constructor
  · rfl
  · rintro ⟨e, he⟩
    simp [stopRecording, Ctl.initial] at he

/-- C7, amended: when no capture is armed (`isRecording` false or `mediaRecorder`
absent), `stopRecording` is a silent no-op: it returns normally, raises no
`InvalidState`, performs no action and leaves every field of the controller, the
status indicator included, as it was. -/
theorem stopRecording_unarmed (c : Ctl)
    (h : c.state.isRecording = false ∨ c.state.mediaRecorder = none) :
    stopRecording c = .ok c := by
  rcases h with h | h
  · cases hm : c.state.mediaRecorder <;> simp [stopRecording, h, hm]
  · simp [stopRecording, h]

/-- Witness for C7, amended: the initial state. -/
theorem stopRecording_unarmed_witness : stopRecording Ctl.initial = .ok Ctl.initial :=
  stopRecording_unarmed Ctl.initial (Or.inl rfl)

/-- C8: when the code box holds text that is not blank after trimming, `sendCode` at
once renders one user turn with `isCode` true carrying the trimmed text and parks on
a message request with `is_code` true, the same trimmed text and the live session id.
However the calls of the run settle, the user turn is the first of the turns and
requests of the run, the message request the second, and no other user turn or
message request occurs. -/
theorem sendCode_turn_then_request (c : Ctl) (rs : List Resp) (p : Ctl × Susp)
    (hcode : jsTrim c.codeTextarea ≠ "")
    (hrun : run (sendCode c) rs = some p) :
    (sendCode c).1.chatMessages = c.chatMessages ++ [.user (jsTrim c.codeTextarea) true]
    ∧ (sendCode c).2.request
        = some (.message c.state.sessionId (jsTrim c.codeTextarea) true)
    ∧ (visible (since c p.1)).take 2
        = [.addUserMessage (jsTrim c.codeTextarea) true,
           .fetch (.message c.state.sessionId (jsTrim c.codeTextarea) true)]
    ∧ (since c p.1).filter (fun e => e.isUserTurn || e.isMessageFetch)
        = [.addUserMessage (jsTrim c.codeTextarea) true,
           .fetch (.message c.state.sessionId (jsTrim c.codeTextarea) true)] := by
  obtain ⟨c₂, e, ht, hst, hch⟩ : ∃ c₂ : Ctl,
      sendCode c = sendMessage (jsTrim c.codeTextarea) true (fun c => finish (id c)) c₂
      ∧ c₂.trace = c.trace ++ [.addUserMessage (jsTrim c.codeTextarea) true]
      ∧ c₂.state = c.state
      ∧ c₂.chatMessages = c.chatMessages ++ [.user (jsTrim c.codeTextarea) true] :=
    ⟨{ addUserMessage (jsTrim c.codeTextarea) true c with codeTextarea := "" },
      by simp [sendCode, hcode], rfl, rfl, rfl⟩
  rw [e] at hrun
  obtain ⟨l, rest, hl, hv, hr⟩ := sendMessage_run _ true id quiet_id c₂ rs p hrun
  have hs : since c p.1 = .addUserMessage (jsTrim c.codeTextarea) true :: l :=
    since_of_trace _ _ _ (by simp [hl, ht])
  have hvis : visible (since c p.1) = .addUserMessage (jsTrim c.codeTextarea) true ::
      .fetch (.message c.state.sessionId (jsTrim c.codeTextarea) true) :: rest := by
    rw [hs]
    have : visible (.addUserMessage (jsTrim c.codeTextarea) true :: l)
        = .addUserMessage (jsTrim c.codeTextarea) true :: visible l := by
      simp [visible, Effect.isTurn]
    rw [this, hv, hst]
  refine ⟨?_, ?_, ?_, ?_⟩
  · rw [e]
    simp [sendMessage, updateStatus, Ctl.emit, hch]
  · rw [e]
    simp [sendMessage, Susp.request, updateStatus, hst]
  · rw [hvis]
    rfl
  · rw [filter_visible _ (by intro e he; cases e <;> simp_all [Effect.isUserTurn,
      Effect.isMessageFetch, Effect.isTurn, Effect.isFetch]), hvis]
    rw [List.filter_cons_of_pos (by rfl), List.filter_cons_of_pos (by rfl), hr]

/-- Witness for C8: the code `def f(): pass` with blanks around it, the message call
answered with a code block only. -/
theorem sendCode_turn_then_request_witness :
    jsTrim " def f(): pass\n" = "def f(): pass"
    ∧ ∃ p, run (sendCode { Ctl.initial with codeTextarea := " def f(): pass\n" })
        [.message (.ok ⟨none, some "ok"⟩)] = some p
      ∧ (visible (since { Ctl.initial with codeTextarea := " def f(): pass\n" } p.1)).take 2
        = [.addUserMessage "def f(): pass" true,
           .fetch (.message none "def f(): pass" true)]
      ∧ (since { Ctl.initial with codeTextarea := " def f(): pass\n" } p.1).filter
          (fun e => e.isUserTurn || e.isMessageFetch)
        = [.addUserMessage "def f(): pass" true,
           .fetch (.message none "def f(): pass" true)] :=
  ⟨by decide, _, rfl,
    (sendCode_turn_then_request { Ctl.initial with codeTextarea := " def f(): pass\n" }
      [.message (.ok ⟨none, some "ok"⟩)] _ (by decide) rfl).2.2⟩

/-- C10 fails on the code for `startInterview`: once the start call has returned
spoken text, synthesis has succeeded and playback has begun, the handler itself sets
the status indicator to `active` (line 115) although no playback-completed event has
occurred and the `onended` callback is still installed.  On the same replies
`sendMessage` leaves the status indicator at `speaking`. -/
theorem startInterview_active_while_playing :
    (∃ m, Machine.initial.steps
        [.settle 0 (.stream (some 0)), .startClick,
         .settle 0 (.start (.ok ⟨some "abc", some "Olá", none⟩)),
         .settle 0 (.synthesize (.ok [7])),
         .settle 0 (.played true)] = some m
      ∧ (since Ctl.initial m.ctl).drop 6
          = [.updateStatus "Falando..." .speaking, .fetch (.synthesize (some "abc") "Olá"),
             .play [7], .updateStatus "Entrevista em andamento" .active]
      ∧ m.ctl.status = .active
      ∧ m.ctl.onended = some [7])
    ∧ (∃ c', run (sendMessage "hi" false finish Ctl.initial)
        [.message (.ok ⟨some "Olá", none⟩), .synthesize (.ok [7]), .played true]
          = some (c', .done)
      ∧ c'.status = .speaking
      ∧ c'.onended = some [7]) := by
  refine ⟨⟨_, rfl, ?_, ?_, ?_⟩, ⟨_, rfl, ?_, ?_⟩⟩ <;> decide

end Entrevistador
